import Mathlib

/-!
Verification of the `shader_printf` sample (nvpro-samples) against its
natural-language specification.  The development shallowly embeds the
observable behaviour of `src/samples/shader_printf/shader_printf.cpp` and the
shared struct declarations of `src/samples/ray_query/shaders/device_host.h`:

* the debug-messenger callback's message-trimming rule (C++ `std::string::find`
  returns `npos = 2^64 - 1` on a 64-bit `size_t`, and `npos + 1` wraps to `0`);
* the render element's state (`ShaderPrintf` members) and its lifecycle hooks
  `onUIRender`, `onResize`, `onRender`, `onDetach` as state transformers /
  command-trace producers;
* the layer-settings configuration built in `main`;
* the field lists of the shared structs, transcribed syntactically.

Float-valued quantities (mouse coordinates, vertex data) are modelled over `ℚ`;
the claims about them concern only which values flow where, never rounding.
-/

/-- 2-component vector (`glm::vec2` / `ImVec2`), components modelled over `ℚ`. -/
structure Vec2 where
  x : ℚ
  y : ℚ
  deriving DecidableEq

/-- Componentwise subtraction, as in `mouse_pos - corner`. -/
def Vec2.sub (a b : Vec2) : Vec2 := ⟨a.x - b.x, a.y - b.y⟩

/-- 3-component vector (`glm::vec3`), components modelled over `ℚ`. -/
structure Vec3 where
  x : ℚ
  y : ℚ
  z : ℚ
  deriving DecidableEq

/-- `struct Light` from `src/samples/ray_query/shaders/device_host.h`. -/
structure Light where
  position : Vec3
  intensity : ℚ
  radius : ℚ
  pad0 : ℚ
  deriving DecidableEq

/-- Modelled from the spec: the `shader_printf` sample includes its own
`shaders/device_host.h` (not among the provided source files); spec section 3
gives its `PushConstant` as `maxDepth: int, frame: int, fireflyClampThreshold:
float, maxSamples: int, light: Light, mouseCoord: vec2`.  The host code
(`shader_printf.cpp`) writes the `mouseCoord` member, consistent with this. -/
structure PushConstant where
  maxDepth : Int
  frame : Int
  fireflyClampThreshold : ℚ
  maxSamples : Int
  light : Light
  mouseCoord : Vec2
  deriving DecidableEq

/-! ## The debug-messenger callback (`dbg_messenger_callback` in `main`)

```cpp
std::string clean_msg = callbackData->pMessage;
clean_msg             = clean_msg.substr(clean_msg.find('\n') + 1);
nvprintf("%s", clean_msg.c_str());
return VK_FALSE;
```

Strings are embedded as `List Char`.  `std::string::find` returns the first
index of the character or `npos`; `find(...) + 1` is `size_t` arithmetic, so it
wraps modulo `2^64`; `substr(pos)` throws `std::out_of_range` when
`pos > size()` (modelled by `none`) and otherwise yields the suffix from
`pos`. -/

/-- `std::string::npos` on a 64-bit platform. -/
def npos : Nat := 2 ^ 64 - 1

/-- First index of character `c` in the string, if any (`std::string::find`,
successful case). -/
def cppFind (c : Char) : List Char → Option Nat
  | [] => none
  | a :: as => if a = c then some 0 else (cppFind c as).map (fun i => i + 1)

/-- `std::string::find`: the first index of `c`, or `npos` when absent. -/
def cppFindVal (c : Char) (s : List Char) : Nat :=
  match cppFind c s with
  | some i => i
  | none => npos

/-- `std::string::substr(pos)`: the suffix from `pos`, or failure
(`std::out_of_range`) when `pos` exceeds the length. -/
def cppSubstr (s : List Char) (pos : Nat) : Option (List Char) :=
  if pos ≤ s.length then some (s.drop pos) else none

/-- The message-trimming step of the callback:
`clean_msg.substr(clean_msg.find('\n') + 1)`, with the `+ 1` performed in
`size_t` (i.e. modulo `2^64`) arithmetic. -/
def cleanMessage (msg : List Char) : Option (List Char) :=
  cppSubstr msg ((cppFindVal '\n' msg + 1) % 2 ^ 64)

/-- `VK_FALSE`, the "do not abort the triggering operation" return value. -/
def VK_FALSE : Nat := 0

/-- The whole callback body: on success it forwards the cleaned message to the
log sink (`nvprintf`, first component) and returns `VK_FALSE` (second
component); `none` would model an escaping `substr` exception. -/
def dbg_messenger_callback (msg : List Char) : Option (List Char × Nat) :=
  match cleanMessage msg with
  | some m => some (m, VK_FALSE)
  | none => none

/-- Index of the first newline of `msg` (meaningful when one exists): the
length of the newline-free prefix. -/
def firstNewlinePos (msg : List Char) : Nat :=
  (msg.takeWhile (fun a => decide (a ≠ '\n'))).length

/-- The substring of `msg` strictly after its first newline. -/
def tailAfterFirstNewline (msg : List Char) : List Char :=
  msg.drop (firstNewlinePos msg + 1)

/-! ## The render element (`class ShaderPrintf`)

Vulkan object handles (pipeline, pipeline layout, buffers) are modelled as
`Nat` identifiers; the G-Buffer (offscreen colour/depth target) carries its
extent and a creation identifier so that "newly created" is expressible.  The
state carries an allocation counter `nextId` supplying fresh identifiers. -/

/-- `VkExtent2D`. -/
structure Extent2D where
  width : Nat
  height : Nat
  deriving DecidableEq

/-- An `nvvkhl::GBuffer` instance: the offscreen colour/depth render target,
with the extent it was created at and its creation identity. -/
structure GBufferRec where
  size : Extent2D
  id : Nat
  deriving DecidableEq

/-- `struct Vertex` of `shader_printf.cpp`: 2D position and 3D colour. -/
structure Vertex where
  pos : Vec2
  color : Vec3
  deriving DecidableEq

/-- The fixed quad vertices uploaded by `createGeometryBuffers`. -/
def verticesData : List Vertex :=
  [⟨⟨-(1/2), -(1/2)⟩, ⟨1, 0, 0⟩⟩,
   ⟨⟨1/2, -(1/2)⟩, ⟨0, 1, 0⟩⟩,
   ⟨⟨1/2, 1/2⟩, ⟨0, 0, 1⟩⟩,
   ⟨⟨-(1/2), 1/2⟩, ⟨1, 1, 1⟩⟩]

/-- The fixed index list (`uint16_t` values) uploaded by
`createGeometryBuffers`. -/
def indicesData : List Nat := [0, 2, 1, 2, 0, 3]

/-- The mutable members of `ShaderPrintf` that the verified claims touch. -/
structure SPState where
  viewSize : Extent2D
  gBuffers : Option GBufferRec
  pipelineLayout : Nat
  graphicsPipeline : Nat
  vertices : Nat
  indices : Nat
  pushConstant : PushConstant
  nextId : Nat
  deriving DecidableEq

/-- `createGbuffers(size)`: store the size and replace the G-Buffer with a
freshly constructed one of that size. -/
def createGbuffers (size : Extent2D) (s : SPState) : SPState :=
  { s with
    viewSize := size
    gBuffers := some ⟨size, s.nextId⟩
    nextId := s.nextId + 1 }

/-- `onResize(width, height)` calls `createGbuffers({width, height})`. -/
def onResize (width height : Nat) (s : SPState) : SPState :=
  createGbuffers ⟨width, height⟩ s

/-- The mouse-coordinate update of `onUIRender`: `mouseDown` is
`ImGui::GetIO().MouseDown[0]`, `mousePos` is `ImGui::GetMousePos()` and
`corner` is `ImGui::GetCursorScreenPos()` (the viewport corner). -/
def onUIRender (mouseDown : Bool) (mousePos corner : Vec2) (s : SPState) : SPState :=
  if mouseDown then
    { s with pushConstant := { s.pushConstant with mouseCoord := Vec2.sub mousePos corner } }
  else
    { s with pushConstant := { s.pushConstant with mouseCoord := ⟨-1, -1⟩ } }

/-- Commands recorded into the command buffer by `onRender`. -/
inductive Cmd where
  | beginRendering (renderArea : Extent2D) (target : GBufferRec)
  | setViewport
  | pushConstants (layout : Nat) (pc : PushConstant)
  | bindPipeline (pipeline : Nat)
  | bindVertexBuffers (buffer : Nat)
  | bindIndexBuffer (buffer : Nat)
  | drawIndexed (indexCount instanceCount firstIndex vertexOffset firstInstance : Nat)
  | endRendering
  deriving DecidableEq

/-- `onRender(cmd)`: returns the (unchanged) state together with the list of
commands recorded.  With no G-Buffer it returns at once, recording nothing;
otherwise it records the fixed sequence, drawing 6 indices (the literal
`vkCmdDrawIndexed(cmd, 6, 1, 0, 0, 0)`). -/
def onRender (s : SPState) : SPState × List Cmd :=
  match s.gBuffers with
  | none => (s, [])
  | some g =>
      (s,
       [Cmd.beginRendering s.viewSize g,
        Cmd.setViewport,
        Cmd.pushConstants s.pipelineLayout s.pushConstant,
        Cmd.bindPipeline s.graphicsPipeline,
        Cmd.bindVertexBuffers s.vertices,
        Cmd.bindIndexBuffer s.indices,
        Cmd.drawIndexed 6 1 0 0 0,
        Cmd.endRendering])

/-! ## Detach sequence (`onDetach` / `destroyResources`) -/

/-- The externally visible steps of detaching. -/
inductive DetachEvent where
  | deviceWaitIdle
  | destroyPipelineLayout
  | destroyPipeline
  | destroyVertexBuffer
  | destroyIndexBuffer
  | resetGBuffers
  deriving DecidableEq

/-- The body of `destroyResources()`, in source order: destroy the pipeline
layout, then the pipeline, then the vertex and index buffers, then drop the
G-Buffer. -/
def destroyResources : List DetachEvent :=
  [DetachEvent.destroyPipelineLayout,
   DetachEvent.destroyPipeline,
   DetachEvent.destroyVertexBuffer,
   DetachEvent.destroyIndexBuffer,
   DetachEvent.resetGBuffers]

/-- `onDetach()`: `vkDeviceWaitIdle(m_device)` followed by
`destroyResources()`. -/
def onDetach : List DetachEvent := DetachEvent.deviceWaitIdle :: destroyResources

/-- Index of the first occurrence of `e` in the trace (length of the trace if
absent). -/
def posOf (e : DetachEvent) : List DetachEvent → Nat
  | [] => 0
  | a :: as => if a = e then 0 else posOf e as + 1

/-! ## Struct field lists (syntactic transcription, for the layout claim) -/

/-- The field types occurring in the shared host/device structs. -/
inductive FieldTy where
  | tInt
  | tFloat
  | tVec2
  | tVec3
  | tLight
  deriving DecidableEq

/-- One field declaration: name and type. -/
structure FieldDecl where
  fname : String
  fty : FieldTy
  deriving DecidableEq

/-- The fields of `struct PushConstant` as declared in
`src/samples/ray_query/shaders/device_host.h` (lines 45–52), in source
order. -/
def rayQueryPushConstantDecl : List FieldDecl :=
  [⟨"maxDepth", FieldTy.tInt⟩,
   ⟨"frame", FieldTy.tInt⟩,
   ⟨"fireflyClampThreshold", FieldTy.tFloat⟩,
   ⟨"maxSamples", FieldTy.tInt⟩,
   ⟨"light", FieldTy.tLight⟩]

/-- The `PushConstant` field list as the spec (section 3) states it:
`maxDepth: int, frame: int, fireflyClampThreshold: float, maxSamples: int,
light: Light, mouseCoord: vec2`. -/
def specPushConstantDecl : List FieldDecl :=
  [⟨"maxDepth", FieldTy.tInt⟩,
   ⟨"frame", FieldTy.tInt⟩,
   ⟨"fireflyClampThreshold", FieldTy.tFloat⟩,
   ⟨"maxSamples", FieldTy.tInt⟩,
   ⟨"light", FieldTy.tLight⟩,
   ⟨"mouseCoord", FieldTy.tVec2⟩]

/-! ## Validation-layer settings built in `main` -/

/-- A `VkLayerSettingEXT` value: the three `VK_LAYER_SETTING_TYPE_*` cases the
sample uses. -/
inductive SettingValue where
  | strings (values : List String)
  | bool32 (value : Bool)
  | int32 (value : Int)
  deriving DecidableEq

/-- A `VkLayerSettingEXT` entry: layer name, setting name, value (the value
list carries its own count). -/
structure LayerSetting where
  layerName : String
  settingName : String
  value : SettingValue
  deriving DecidableEq

/-- `layer_name` in `main`. -/
def layer_name : String := "VK_LAYER_KHRONOS_validation"

/-- The `settings[]` array built in `main`. -/
def settings : List LayerSetting :=
  [⟨layer_name, "validate_gpu_based", SettingValue.strings ["GPU_BASED_DEBUG_PRINTF"]⟩,
   ⟨layer_name, "printf_verbose", SettingValue.bool32 false⟩,
   ⟨layer_name, "printf_to_stdout", SettingValue.bool32 false⟩,
   ⟨layer_name, "printf_buffer_size", SettingValue.int32 1024⟩]

/-- `VkLayerSettingsCreateInfoEXT`: one extension structure holding all
the settings. -/
structure LayerSettingsCreateInfo where
  settingCount : Nat
  pSettings : List LayerSetting
  deriving DecidableEq

/-- `layer_settings_create_info` in `main`: `settingCount = std::size(settings)`
over the `settings[]` array. -/
def layer_settings_create_info : LayerSettingsCreateInfo :=
  ⟨settings.length, settings⟩

/-- A sample state used to witness theorems with hypotheses. -/
def sampleState : SPState :=
  { viewSize := ⟨0, 0⟩
    gBuffers := none
    pipelineLayout := 1
    graphicsPipeline := 2
    vertices := 3
    indices := 4
    pushConstant := ⟨0, 0, 0, 0, ⟨⟨0, 0, 0⟩, 0, 0, 0⟩, ⟨0, 0⟩⟩
    nextId := 5 }

/-- A sample state owning a G-Buffer, for witnessing the render-path
theorems. -/
def sampleStateWithTarget : SPState :=
  { sampleState with
    viewSize := ⟨640, 480⟩
    gBuffers := some ⟨⟨640, 480⟩, 0⟩
    nextId := 6 }

/-! ## Supporting lemmas about `cppFind` -/

theorem cppFind_eq_none_of_not_mem {c : Char} :
    ∀ {s : List Char}, c ∉ s → cppFind c s = none := by
  intro s
  induction s with
  | nil => intro _; rfl
  | cons a as ih =>
    intro h
    have ha : ¬a = c := fun hac => h (hac ▸ List.mem_cons_self a as)
    have has : c ∉ as := fun hmem => h (List.mem_cons_of_mem a hmem)
    simp [cppFind, ha, ih has]

theorem cppFind_of_mem {c : Char} :
    ∀ {s : List Char}, c ∈ s →
      cppFind c s = some ((s.takeWhile (fun a => decide (a ≠ c))).length) := by
  intro s
  induction s with
  | nil => intro h; cases h
  | cons a as ih =>
    intro h
    by_cases hac : a = c
    · simp [cppFind, hac, List.takeWhile_cons]
    · have hmem : c ∈ as := by
        rcases List.mem_cons.mp h with h1 | h2
        · exact absurd h1.symm hac
        · exact h2
      simp [cppFind, hac, ih hmem, List.takeWhile_cons]

theorem cppFind_lt_length {c : Char} :
    ∀ {s : List Char} {i : Nat}, cppFind c s = some i → i < s.length := by
  intro s
  induction s with
  | nil => intro i h; cases h
  | cons a as ih =>
    intro i h
    by_cases hac : a = c
    · simp [cppFind, hac] at h
      simp only [List.length_cons]
      omega
    · simp [cppFind, hac] at h
      rcases h with ⟨j, hj, rfl⟩
      have := ih hj
      simp only [List.length_cons]
      omega

/-! ## Behaviour of `cleanMessage` -/

theorem cleanMessage_of_mem (msg : List Char) (hmem : '\n' ∈ msg)
    (hlen : msg.length < 2 ^ 64) :
    cleanMessage msg = some (tailAfterFirstNewline msg) := by
  have hfind : cppFind '\n' msg = some (firstNewlinePos msg) := cppFind_of_mem hmem
  have hlt : firstNewlinePos msg < msg.length := cppFind_lt_length hfind
  have hval : cppFindVal '\n' msg = firstNewlinePos msg := by
    unfold cppFindVal
    rw [hfind]
  have hmod : (firstNewlinePos msg + 1) % 2 ^ 64 = firstNewlinePos msg + 1 :=
    Nat.mod_eq_of_lt (by omega)
  unfold cleanMessage cppSubstr
  rw [hval, hmod, if_pos (by omega)]
  rfl

theorem cleanMessage_of_not_mem (msg : List Char) (hmem : '\n' ∉ msg) :
    cleanMessage msg = some msg := by
  have hfind : cppFind '\n' msg = none := cppFind_eq_none_of_not_mem hmem
  have hval : cppFindVal '\n' msg = npos := by
    unfold cppFindVal
    rw [hfind]
  have hzero : (npos + 1) % 2 ^ 64 = 0 := by
    unfold npos
    norm_num
  unfold cleanMessage cppSubstr
  rw [hval, hzero, if_pos (Nat.zero_le _)]
  simp

theorem cleanMessage_total (msg : List Char) : ∃ m, cleanMessage msg = some m := by
  by_cases h : '\n' ∈ msg
  · have hfind : cppFind '\n' msg = some (firstNewlinePos msg) := cppFind_of_mem h
    have hlt : firstNewlinePos msg < msg.length := cppFind_lt_length hfind
    have hval : cppFindVal '\n' msg = firstNewlinePos msg := by
      unfold cppFindVal
      rw [hfind]
    have hle : (firstNewlinePos msg + 1) % 2 ^ 64 ≤ msg.length :=
      le_trans (Nat.mod_le _ _) hlt
    refine ⟨msg.drop ((firstNewlinePos msg + 1) % 2 ^ 64), ?_⟩
    unfold cleanMessage cppSubstr
    rw [hval, if_pos hle]
  · exact ⟨msg, cleanMessage_of_not_mem msg h⟩

/-! ## Claim theorems for the debug-message relay -/

/-- Claim C1: for every driver debug message containing at least one newline
(and of realistic length, i.e. below `2^64` characters), the callback forwards
to the log sink exactly the substring strictly after the first newline —
everything up to and including the first newline is removed and the remainder
passes verbatim. -/
theorem dbg_callback_strips_preamble (msg : List Char) (hmem : '\n' ∈ msg)
    (hlen : msg.length < 2 ^ 64) :
    dbg_messenger_callback msg = some (tailAfterFirstNewline msg, VK_FALSE) := by
  unfold dbg_messenger_callback
  rw [cleanMessage_of_mem msg hmem hlen]

/-- Witness for C1: the message `"W\nhi"` is forwarded as `"hi"`. -/
theorem dbg_callback_strips_preamble_witness :
    dbg_messenger_callback ['W', '\n', 'h', 'i'] = some (['h', 'i'], VK_FALSE) := by
  have h := dbg_callback_strips_preamble ['W', '\n', 'h', 'i'] (by decide) (by decide)
  rw [h]
  rfl

/-- Claim C2: a driver debug message with no newline does not crash the
callback (`substr` receives position `0`, since `npos + 1` wraps to `0` in
`size_t` arithmetic) and is forwarded unchanged. -/
theorem dbg_callback_passthrough (msg : List Char) (hmem : '\n' ∉ msg) :
    dbg_messenger_callback msg = some (msg, VK_FALSE) := by
  unfold dbg_messenger_callback
  rw [cleanMessage_of_not_mem msg hmem]

/-- Witness for C2: the newline-free message `"hi"` passes through
unchanged. -/
theorem dbg_callback_passthrough_witness :
    dbg_messenger_callback ['h', 'i'] = some (['h', 'i'], VK_FALSE) := by
  have h := dbg_callback_passthrough ['h', 'i'] (by decide)
  rw [h]

/-- Claim C8: for every driver debug message the callback completes and
returns `VK_FALSE` — it never suppresses the operation that triggered the
message. -/
theorem dbg_callback_never_aborts (msg : List Char) :
    ∃ m, dbg_messenger_callback msg = some (m, VK_FALSE) := by
  obtain ⟨m, hm⟩ := cleanMessage_total msg
  refine ⟨m, ?_⟩
  unfold dbg_messenger_callback
  rw [hm]

/-! ## Claim theorems for the render element -/

/-- Claim C3: on every UI-render frame, `PushConstant.mouseCoord` is set to
`(-1, -1)` when the primary pointer button is not held, and to
`pointerPosition - viewportOrigin` (mouse position minus the viewport corner)
when it is held. -/
theorem onUIRender_mouseCoord (mouseDown : Bool) (mousePos corner : Vec2)
    (s : SPState) :
    (onUIRender mouseDown mousePos corner s).pushConstant.mouseCoord =
      if mouseDown then Vec2.sub mousePos corner else ⟨-1, -1⟩ := by
  cases mouseDown <;> rfl

/-- Claim C6: resizing to `(width, height)` replaces the G-Buffer with a newly
created one (distinct from any previously held one) of exactly that size,
while the pipeline, pipeline layout, vertex buffer and index buffer are left
untouched. -/
theorem onResize_replaces_target (width height : Nat) (s : SPState)
    (hfresh : ∀ g, s.gBuffers = some g → g.id < s.nextId) :
    (onResize width height s).gBuffers = some ⟨⟨width, height⟩, s.nextId⟩ ∧
    (onResize width height s).gBuffers ≠ s.gBuffers ∧
    (onResize width height s).graphicsPipeline = s.graphicsPipeline ∧
    (onResize width height s).pipelineLayout = s.pipelineLayout ∧
    (onResize width height s).vertices = s.vertices ∧
    (onResize width height s).indices = s.indices := by
  refine ⟨rfl, ?_, rfl, rfl, rfl, rfl⟩
  intro heq
  have h1 : (onResize width height s).gBuffers = some ⟨⟨width, height⟩, s.nextId⟩ := rfl
  rw [h1] at heq
  cases hg : s.gBuffers with
  | none => rw [hg] at heq; cases heq
  | some g =>
      rw [hg] at heq
      injection heq with h2
      have hlt := hfresh g hg
      rw [← h2] at hlt
      exact Nat.lt_irrefl _ hlt

/-- Witness for C6: resizing the sample state to `800 × 600`. -/
theorem onResize_replaces_target_witness :
    (onResize 800 600 sampleState).gBuffers = some ⟨⟨800, 600⟩, sampleState.nextId⟩ ∧
    (onResize 800 600 sampleState).gBuffers ≠ sampleState.gBuffers ∧
    (onResize 800 600 sampleState).graphicsPipeline = sampleState.graphicsPipeline ∧
    (onResize 800 600 sampleState).pipelineLayout = sampleState.pipelineLayout ∧
    (onResize 800 600 sampleState).vertices = sampleState.vertices ∧
    (onResize 800 600 sampleState).indices = sampleState.indices :=
  onResize_replaces_target 800 600 sampleState (fun _ hg => Option.noConfusion hg)

/-- Claim C7: without a G-Buffer, `onRender` returns silently — no commands,
state untouched; with one, it begins the render pass, pushes the full
`PushConstant`, binds the pipeline, binds vertex and index buffers, draws the
fixed index count 6 exactly once, and ends the render pass. -/
theorem onRender_sequence (s : SPState) :
    (s.gBuffers = none → onRender s = (s, [])) ∧
    (∀ g, s.gBuffers = some g →
      onRender s =
        (s,
         [Cmd.beginRendering s.viewSize g,
          Cmd.setViewport,
          Cmd.pushConstants s.pipelineLayout s.pushConstant,
          Cmd.bindPipeline s.graphicsPipeline,
          Cmd.bindVertexBuffers s.vertices,
          Cmd.bindIndexBuffer s.indices,
          Cmd.drawIndexed 6 1 0 0 0,
          Cmd.endRendering])) := by
  constructor
  · intro h
    unfold onRender
    rw [h]
  · intro g h
    unfold onRender
    rw [h]

/-- Witness for C7: both branches at concrete states. -/
theorem onRender_sequence_witness :
    onRender sampleState = (sampleState, []) ∧
    onRender sampleStateWithTarget =
      (sampleStateWithTarget,
       [Cmd.beginRendering ⟨640, 480⟩ ⟨⟨640, 480⟩, 0⟩,
        Cmd.setViewport,
        Cmd.pushConstants 1 sampleStateWithTarget.pushConstant,
        Cmd.bindPipeline 2,
        Cmd.bindVertexBuffers 3,
        Cmd.bindIndexBuffer 4,
        Cmd.drawIndexed 6 1 0 0 0,
        Cmd.endRendering]) :=
  ⟨(onRender_sequence sampleState).1 rfl,
   (onRender_sequence sampleStateWithTarget).2 ⟨⟨640, 480⟩, 0⟩ rfl⟩

/-- Claim C10: every entry of the fixed index list is a valid index into the
four uploaded vertices, and the index count passed to the draw call equals the
length of the index list, so the fixed draw never references a vertex outside
the vertex buffer. -/
theorem draw_indices_in_bounds (s : SPState) (g : GBufferRec)
    (h : s.gBuffers = some g) :
    indicesData.length = 6 ∧
    (∀ i ∈ indicesData, i < verticesData.length) ∧
    Cmd.drawIndexed indicesData.length 1 0 0 0 ∈ (onRender s).2 := by
  refine ⟨rfl, by decide, ?_⟩
  have he : Cmd.drawIndexed indicesData.length 1 0 0 0 = Cmd.drawIndexed 6 1 0 0 0 := rfl
  rw [he]
  unfold onRender
  rw [h]
  simp

/-- Witness for C10: the bound holds at the concrete render-ready state. -/
theorem draw_indices_in_bounds_witness :
    indicesData.length = 6 ∧
    (∀ i ∈ indicesData, i < verticesData.length) ∧
    Cmd.drawIndexed indicesData.length 1 0 0 0 ∈ (onRender sampleStateWithTarget).2 :=
  draw_indices_in_bounds sampleStateWithTarget ⟨⟨640, 480⟩, 0⟩ rfl

/-! ## Claim theorems for the detach sequence -/

/-- Claim C5, counterexample: the claim asserts the pipeline is released
before the pipeline layout, but `destroyResources()` destroys the pipeline
layout first (line 267) and the pipeline second (line 268). -/
theorem onDetach_order_counterexample :
    ¬ posOf DetachEvent.destroyPipeline onDetach <
        posOf DetachEvent.destroyPipelineLayout onDetach := by
  decide

/-- Claim C5 (amended): on detach the component first waits for all in-flight
device work, then releases the pipeline layout, the pipeline, the vertex
buffer and the index buffer, each exactly once, in that order, with no release
before the device-idle wait. -/
theorem onDetach_release_order :
    onDetach.count DetachEvent.deviceWaitIdle = 1 ∧
    onDetach.count DetachEvent.destroyPipelineLayout = 1 ∧
    onDetach.count DetachEvent.destroyPipeline = 1 ∧
    onDetach.count DetachEvent.destroyVertexBuffer = 1 ∧
    onDetach.count DetachEvent.destroyIndexBuffer = 1 ∧
    posOf DetachEvent.deviceWaitIdle onDetach = 0 ∧
    posOf DetachEvent.deviceWaitIdle onDetach <
      posOf DetachEvent.destroyPipelineLayout onDetach ∧
    posOf DetachEvent.destroyPipelineLayout onDetach <
      posOf DetachEvent.destroyPipeline onDetach ∧
    posOf DetachEvent.destroyPipeline onDetach <
      posOf DetachEvent.destroyVertexBuffer onDetach ∧
    posOf DetachEvent.destroyVertexBuffer onDetach <
      posOf DetachEvent.destroyIndexBuffer onDetach := by
  decide

/-! ## Claim theorems for the struct declaration and the layer settings -/

/-- Claim C4, counterexample: the `PushConstant` declared in
`src/samples/ray_query/shaders/device_host.h` does not match the claimed
six-field list — it has no `mouseCoord` field at all. -/
theorem pushConstant_decl_counterexample :
    rayQueryPushConstantDecl ≠ specPushConstantDecl ∧
    FieldDecl.mk "mouseCoord" FieldTy.tVec2 ∉ rayQueryPushConstantDecl := by
  decide

/-- Claim C4 (amended): the `PushConstant` declared in the provided sources
(ray-query sample) consists of exactly `maxDepth: int, frame: int,
fireflyClampThreshold: float, maxSamples: int, light: Light` in that order;
the spec's six-field record is exactly that declaration extended with a
trailing `mouseCoord: vec2` (the field the shader_printf sample's own header,
absent from the provided sources, adds). -/
theorem pushConstant_decl_amended :
    specPushConstantDecl =
      rayQueryPushConstantDecl ++ [⟨"mouseCoord", FieldTy.tVec2⟩] := by
  rfl

/-- Claim C9: the host configures the validation layer with exactly four named
settings — `validate_gpu_based = ["GPU_BASED_DEBUG_PRINTF"]`,
`printf_verbose = false`, `printf_to_stdout = false`,
`printf_buffer_size = 1024` — passed together as one layer-settings extension
structure whose count covers all of them. -/
theorem layer_settings_configuration :
    layer_settings_create_info.settingCount = 4 ∧
    layer_settings_create_info.pSettings =
      [⟨layer_name, "validate_gpu_based", SettingValue.strings ["GPU_BASED_DEBUG_PRINTF"]⟩,
       ⟨layer_name, "printf_verbose", SettingValue.bool32 false⟩,
       ⟨layer_name, "printf_to_stdout", SettingValue.bool32 false⟩,
       ⟨layer_name, "printf_buffer_size", SettingValue.int32 1024⟩] ∧
    layer_settings_create_info.settingCount = layer_settings_create_info.pSettings.length := by
  exact ⟨rfl, rfl, rfl⟩
